import Mathlib

/-!
Verification of the configuration-to-policy core of clevis-pin-tpm2
(`src/cli.rs`): a shallow embedding of `TPM2Config::normalize`,
`TPM2Config::normalize_pcr_ids`, `TPM2Config::get_pcr_ids` and the
`TryFrom<&TPM2Config> for TPMPolicyStep` policy compiler, together with
theorems about normalization and compilation.
-/

/-- A serde_json number: a non-negative integer representable as u64
(`PosInt`), a negative integer representable as i64 (`NegInt`), or a
floating-point number (`Float`; its value is never inspected by this core,
only the fact that it is not a u64). -/
inductive JNum where
  | posInt (n : Nat)
  | negInt (n : Int)
  | float
deriving DecidableEq

/-- A serde_json value. -/
inductive JValue where
  | null
  | bool (b : Bool)
  | num (n : JNum)
  | str (s : String)
  | arr (vs : List JValue)
  | obj (fields : List (String × JValue))

/-- Abnormal outcomes: `err` models an `anyhow::Error` return (`bail!` /
`anyhow!`), `panicked` models a Rust panic (`unwrap` on `None`, explicit
`panic!`). -/
inductive Failure where
  | err (msg : String)
  | panicked (msg : String)
deriving DecidableEq

/-- Maximum value of a Rust u64. -/
def U64_MAX : Nat := 18446744073709551615

/-- Absolute value of the minimum Rust i64. -/
def I64_MIN_ABS : Nat := 9223372036854775808

/-- Longest prefix of decimal digits, with the remainder. -/
def spanDigits : List Char → List Char × List Char
  | [] => ([], [])
  | c :: cs =>
    if c.isDigit then
      let (d, r) := spanDigits cs
      (c :: d, r)
    else ([], c :: cs)

/-- Numeric value of a list of decimal digits. -/
def digitsVal (cs : List Char) : Nat :=
  cs.foldl (fun a c => a * 10 + (c.toNat - 48)) 0

/-- JSON integer part: a lone `0`, or a nonzero digit followed by digits.
Returns the digits and the remainder, or `none` if no valid integer part
starts the input. -/
def parseIntPart : List Char → Option (List Char × List Char)
  | [] => none
  | c :: cs =>
    if c = '0' then some ([c], cs)
    else if c.isDigit then
      let (d, r) := spanDigits cs
      some (c :: d, r)
    else none

/-- Optional JSON fraction part `.digits`; returns whether one was present. -/
def parseFrac : List Char → Option (Bool × List Char)
  | '.' :: cs =>
    let (d, r) := spanDigits cs
    if d.isEmpty then none else some (true, r)
  | cs => some (false, cs)

/-- Digits of an exponent after the `e`/`E` marker and optional sign. -/
def parseExpRest (cs : List Char) : Option (Bool × List Char) :=
  let cs' := match cs with
    | '+' :: r => r
    | '-' :: r => r
    | r => r
  let (d, r) := spanDigits cs'
  if d.isEmpty then none else some (true, r)

/-- Optional JSON exponent part; returns whether one was present. -/
def parseExp : List Char → Option (Bool × List Char)
  | 'e' :: cs => parseExpRest cs
  | 'E' :: cs => parseExpRest cs
  | cs => some (false, cs)

/-- Modelled from the spec and the serde_json number grammar (the `str.parse
::<serde_json::Number>` call in `normalize_pcr_ids` delegates to serde_json,
which is outside this repository): parse the part after an optional leading
minus sign. A number with a fraction or exponent part is a float; a negative
zero or an integer overflowing the 64-bit range also becomes a float, as in
serde_json's parser. -/
def parseJNumCore (neg : Bool) (cs : List Char) : Option JNum :=
  match parseIntPart cs with
  | none => none
  | some (intd, r1) =>
    match parseFrac r1 with
    | none => none
    | some (hasFrac, r2) =>
      match parseExp r2 with
      | none => none
      | some (hasExp, r3) =>
        if r3 = [] then
          if hasFrac || hasExp then some .float
          else
            let v := digitsVal intd
            if neg then
              if v = 0 then some .float
              else if v ≤ I64_MIN_ABS then some (.negInt (-(v : Int)))
              else some .float
            else
              if v ≤ U64_MAX then some (.posInt v) else some .float
        else none

/-- Modelled from the spec: `serde_json::Number::from_str` on an
already-trimmed string; `none` models a parse error. -/
def parseJNum (cs : List Char) : Option JNum :=
  match cs with
  | '-' :: rest => parseJNumCore true rest
  | _ => parseJNumCore false cs

/-- `serde_json::Value::is_u64` restricted to numbers: true exactly for
non-negative integers stored as u64. -/
def JNum.is_u64 : JNum → Bool
  | .posInt _ => true
  | _ => false

/-- Rust `str::trim`: drop leading whitespace characters. -/
def dropLeading : List Char → List Char
  | [] => []
  | c :: r => if c.isWhitespace then dropLeading r else c :: r

/-- Rust `str::trim`: whitespace stripped from both ends. -/
def trimChars (cs : List Char) : List Char :=
  ((dropLeading ((dropLeading cs).reverse)).reverse)

/-- Rust `str::split(',')`: split at every comma; an empty string yields one
empty piece. -/
def splitOnComma : List Char → List (List Char)
  | [] => [[]]
  | c :: rest =>
    let r := splitOnComma rest
    if c = ',' then [] :: r
    else
      match r with
      | [] => [[c]]
      | h :: t => (c :: h) :: t

/-- The element map of `normalize_pcr_ids`'s third block: a string element is
trimmed and parsed as a serde_json number and must be a u64; a numeric element
must be a u64; anything else is invalid. -/
def normElem (x : JValue) : Except Failure JValue :=
  match x with
  | .str val =>
    match parseJNum (trimChars val.toList) with
    | some res =>
      if !res.is_u64 then .error (.err "Non-positive string int")
      else .ok (.num res)
    | none => .error (.err "Unparseable string int")
  | .num n =>
    if !(JNum.is_u64 n) then .error (.err "Non-positive int")
    else .ok (.num n)
  | _ => .error (.err "Invalid value in pcr_ids")

/-- Rust `Iterator::collect::<Result<Vec<_>, _>>`: map each element, stopping
at the first error. -/
def mapMExcept (f : α → Except Failure β) : List α → Except Failure (List β)
  | [] => .ok []
  | x :: xs =>
    match f x with
    | .error e => .error e
    | .ok y =>
      match mapMExcept f xs with
      | .error e => .error e
      | .ok ys => .ok (y :: ys)

/-- First block of `normalize_pcr_ids`: an array holding exactly one string is
collapsed to that bare string. -/
def collapseSingleton (p : Option JValue) : Option JValue :=
  match p with
  | some (.arr [.str v]) => some (.str v)
  | _ => p

/-- Second block of `normalize_pcr_ids`: a bare string is split on commas,
each piece trimmed, and re-wrapped as an array of strings. -/
def splitCommaString (p : Option JValue) : Option JValue :=
  match p with
  | some (.str v) =>
    some (.arr ((splitOnComma v.toList).map (fun x => .str (String.mk (trimChars x)))))
  | _ => p

/-- The shape-convergence phase of `normalize_pcr_ids` (first two blocks). -/
def convergeShape (p : Option JValue) : Option JValue :=
  splitCommaString (collapseSingleton p)

/-- `TPM2Config::normalize_pcr_ids`, acting on the `pcr_ids` field: converge
the shape, then map every array element to a u64 number; a remaining value
that is neither absent nor an array is an invalid type. -/
def normalize_pcr_ids (p : Option JValue) : Except Failure (Option JValue) :=
  match convergeShape p with
  | some (.arr vals) =>
    match mapMExcept normElem vals with
    | .error e => .error e
    | .ok newvals => .ok (some (.arr newvals))
  | none => .ok none
  | some _ => .error (.err "Invalid type")

example : normalize_pcr_ids (some (.str "1, 7,12")) =
    .ok (some (.arr [.num (.posInt 1), .num (.posInt 7), .num (.posInt 12)])) := rfl

example : normalize_pcr_ids (some (.arr [.str "7"])) =
    .ok (some (.arr [.num (.posInt 7)])) := rfl

example : normalize_pcr_ids (some (.arr [.str "-3"])) =
    .error (.err "Non-positive string int") := rfl

example : normalize_pcr_ids (some (.arr [.str "1.5", .str "3"])) =
    .error (.err "Non-positive string int") := rfl

example : normalize_pcr_ids (some (.arr [.str "abc", .str "3"])) =
    .error (.err "Unparseable string int") := rfl

example : normalize_pcr_ids (some (.num (.posInt 7))) =
    .error (.err "Invalid type") := rfl

/-- The deserialized pin configuration (`struct TPM2Config`). -/
structure TPM2Config where
  hash : Option String
  key : Option String
  pcr_bank : Option String
  pcr_ids : Option JValue
  pcr_digest : Option String
  use_policy : Option Bool
  policy_pubkey_path : Option String
  policy_ref : Option String
  policy_path : Option String

def DEFAULT_POLICY_PATH : String := "/boot/clevis_policy.json"

def DEFAULT_PUBKEY_PATH : String := "/boot/clevis_pubkey.json"

def DEFAULT_POLICY_REF : String := ""

/-- `normalize`, bank-default step: once PCR ids are present and no bank was
given, the bank becomes "sha256". -/
def applyBankDefault (c : TPM2Config) : TPM2Config :=
  if c.pcr_ids.isSome && c.pcr_bank.isNone then
    { c with pcr_bank := some "sha256" }
  else c

/-- `normalize`, policy defaulting: fill `policy_path` when unset. -/
def defaultPolicyPath (c : TPM2Config) : TPM2Config :=
  if c.policy_path = none then { c with policy_path := some DEFAULT_POLICY_PATH } else c

/-- `normalize`, policy defaulting: fill `policy_pubkey_path` when unset. -/
def defaultPubkeyPath (c : TPM2Config) : TPM2Config :=
  if c.policy_pubkey_path = none then
    { c with policy_pubkey_path := some DEFAULT_PUBKEY_PATH }
  else c

/-- `normalize`, policy defaulting: fill `policy_ref` when unset. -/
def defaultPolicyRef (c : TPM2Config) : TPM2Config :=
  if c.policy_ref = none then { c with policy_ref := some DEFAULT_POLICY_REF } else c

/-- `normalize`, policy defaulting: when `use_policy` is explicitly true, any
of the three policy fields left unset is filled with its default. -/
def applyPolicyDefaults (c : TPM2Config) : TPM2Config :=
  if c.use_policy = some true then
    defaultPolicyRef (defaultPubkeyPath (defaultPolicyPath c))
  else c

/-- The condition of `normalize`'s final `bail!`: at least one of the three
policy fields is set, but not all three. -/
def someNotAllPolicy (c : TPM2Config) : Bool :=
  (c.policy_pubkey_path.isSome || c.policy_path.isSome || c.policy_ref.isSome)
    && (c.policy_pubkey_path.isNone || c.policy_path.isNone || c.policy_ref.isNone)

/-- The condition under which `normalize` writes its advisory `eprintln!`
warning: `use_policy` is not explicitly true while some policy field is set.
The fields it reads are untouched by the PCR steps that precede it, so it is
stated on the incoming configuration. -/
def emitsPolicyWarning (c : TPM2Config) : Bool :=
  match c.use_policy with
  | some true => false
  | _ => c.policy_pubkey_path.isSome || c.policy_path.isSome || c.policy_ref.isSome

/-- `normalize` after the PCR-ids rewrite: bank default, policy defaulting,
then the all-or-nothing check. -/
def normalizeRest (c : TPM2Config) : Except Failure TPM2Config :=
  let c2 := applyBankDefault c
  let c3 := applyPolicyDefaults c2
  if someNotAllPolicy c3 then
    .error (.err "Not all of policy pubkey, path and ref are specified")
  else .ok c3

/-- `TPM2Config::normalize`: rewrite `pcr_ids` into canonical form, then apply
the defaulting steps and the all-or-nothing check. -/
def TPM2Config.normalize (c : TPM2Config) : Except Failure TPM2Config :=
  match normalize_pcr_ids c.pcr_ids with
  | .error e => .error e
  | .ok ids => normalizeRest { c with pcr_ids := ids }

/-- `serde_json::Value::as_u64`. -/
def as_u64 : JValue → Option Nat
  | .num (.posInt n) => some n
  | _ => none

/-- The element loop of `get_pcr_ids`: `as_u64().unwrap()` on each element;
any non-u64 element is a panic. -/
def mapUnwrapU64 : List JValue → Option (List Nat)
  | [] => some []
  | x :: xs =>
    match as_u64 x with
    | none => none
    | some n =>
      match mapUnwrapU64 xs with
      | none => none
      | some ns => some (n :: ns)

/-- `TPM2Config::get_pcr_ids`: `None` when `pcr_ids` is absent, the list of
u64 values when it is an array (panicking on a non-u64 element), and a panic
on any other shape. -/
def TPM2Config.get_pcr_ids (c : TPM2Config) : Except Failure (Option (List Nat)) :=
  match c.pcr_ids with
  | none => .ok none
  | some (.arr vals) =>
    match mapUnwrapU64 vals with
    | some l => .ok (some l)
    | none => .error (.panicked "called Option::unwrap on a None value")
  | some _ => .error (.panicked "Unexpected type found for pcr_ids")

/-- Modelled from the spec: the external hash-algorithm lookup
(`get_hash_alg_from_name`, in `utils.rs`, outside src/) turns an optional
algorithm name into an identifier; this core passes the raw name through
unchanged, so the identifier is modelled as the carried name. -/
inductive HashAlg where
  | named (name : Option String)

def get_hash_alg_from_name (name : Option String) : HashAlg := .named name

/-- `TPM2Config::get_pcr_hash_alg`. -/
def TPM2Config.get_pcr_hash_alg (c : TPM2Config) : HashAlg :=
  get_hash_alg_from_name c.pcr_bank

/-- Modelled from the spec: the policy-expression tree (`TPMPolicyStep`, from
the external tpm2_policy crate): a no-op leaf, a PCR match, a signed
(authorized) match, and a fixed 8-slot Or combinator. -/
inductive TPMPolicyStep where
  | NoStep
  | PCRs (alg : HashAlg) (ids : List Nat) (next : TPMPolicyStep)
  | Authorized (pubkey_path : String) (key_hint : Option String)
      (policy_ref : Option String)
  | Or (b0 b1 b2 b3 b4 b5 b6 b7 : TPMPolicyStep)

/-- `TryFrom<&TPM2Config> for TPMPolicyStep`, parameterized by the external
signed-policy constructor `get_authorized_policy_step` (in `utils.rs`,
outside src/), which this core invokes with the pubkey path, an absent key
hint, and the configured policy ref. -/
def tryFrom
    (getAuthorizedPolicyStep :
      String → Option String → Option String → Except Failure TPMPolicyStep)
    (cfg : TPM2Config) : Except Failure TPMPolicyStep :=
  if cfg.pcr_ids.isSome && cfg.policy_pubkey_path.isSome then
    match cfg.get_pcr_ids with
    | .error e => .error e
    | .ok none => .error (.panicked "called Option::unwrap on a None value")
    | .ok (some ids) =>
      match cfg.policy_pubkey_path with
      | none => .error (.panicked "called Option::unwrap on a None value")
      | some pk =>
        match getAuthorizedPolicyStep pk none cfg.policy_ref with
        | .error e => .error e
        | .ok auth =>
          .ok (.Or (.PCRs cfg.get_pcr_hash_alg ids .NoStep) auth
            .NoStep .NoStep .NoStep .NoStep .NoStep .NoStep)
  else if cfg.pcr_ids.isSome then
    match cfg.get_pcr_ids with
    | .error e => .error e
    | .ok none => .error (.panicked "called Option::unwrap on a None value")
    | .ok (some ids) => .ok (.PCRs cfg.get_pcr_hash_alg ids .NoStep)
  else if cfg.policy_pubkey_path.isSome then
    match cfg.policy_pubkey_path with
    | none => .error (.panicked "called Option::unwrap on a None value")
    | some pk => getAuthorizedPolicyStep pk none cfg.policy_ref
  else .ok .NoStep

/-- A canonical PCR element: a number holding a u64. -/
def canonElem : JValue → Bool
  | .num (.posInt _) => true
  | _ => false

/-- A configuration with every field absent. -/
def emptyCfg : TPM2Config :=
  { hash := none, key := none, pcr_bank := none, pcr_ids := none,
    pcr_digest := none, use_policy := none, policy_pubkey_path := none,
    policy_ref := none, policy_path := none }

/-- Sample input: comma-separated PCR ids and `use_policy: true`. -/
def sampleRaw : TPM2Config :=
  { emptyCfg with pcr_ids := some (.str "1, 7,12"), use_policy := some true }

/-- The normalized form of `sampleRaw`. -/
def sampleNormalized : TPM2Config :=
  { hash := none, key := none, pcr_bank := some "sha256",
    pcr_ids := some (.arr [.num (.posInt 1), .num (.posInt 7), .num (.posInt 12)]),
    pcr_digest := none, use_policy := some true,
    policy_pubkey_path := some DEFAULT_PUBKEY_PATH,
    policy_ref := some DEFAULT_POLICY_REF,
    policy_path := some DEFAULT_POLICY_PATH }

/-- Sample input with exactly one of the three policy fields set. -/
def partialPolicyCfg : TPM2Config :=
  { emptyCfg with policy_ref := some "myref" }

/-- Sample input with all three policy fields set but `use_policy` absent. -/
def warnCfg : TPM2Config :=
  { emptyCfg with
    policy_pubkey_path := some "/tmp/pub.json"
    policy_path := some "/tmp/pol.json"
    policy_ref := some "r" }

example : sampleRaw.normalize = .ok sampleNormalized := rfl

example : emptyCfg.normalize = .ok emptyCfg := rfl

theorem normElem_posInt (n : Nat) :
    normElem (.num (.posInt n)) = .ok (.num (.posInt n)) := rfl

theorem normElem_ok_canon {x y : JValue} (h : normElem x = .ok y) :
    ∃ n, y = .num (.posInt n) := by
  cases x with
  | str val =>
    cases hp : parseJNum (trimChars val.data) with
    | none => simp [normElem, hp] at h
    | some res =>
      cases res with
      | posInt n =>
        simp [normElem, hp, JNum.is_u64] at h
        exact ⟨n, h.symm⟩
      | negInt m => simp [normElem, hp, JNum.is_u64] at h
      | float => simp [normElem, hp, JNum.is_u64] at h
  | num n =>
    cases n with
    | posInt m =>
      simp [normElem, JNum.is_u64] at h
      exact ⟨m, h.symm⟩
    | negInt m => simp [normElem, JNum.is_u64] at h
    | float => simp [normElem, JNum.is_u64] at h
  | null => simp [normElem] at h
  | bool b => simp [normElem] at h
  | arr vs => simp [normElem] at h
  | obj fs => simp [normElem] at h

theorem mapMExcept_forall₂ {f : α → Except Failure β} :
    ∀ {xs : List α} {ys : List β}, mapMExcept f xs = .ok ys →
      List.Forall₂ (fun a b => f a = .ok b) xs ys := by
  intro xs
  induction xs with
  | nil =>
    intro ys h
    simp [mapMExcept] at h
    subst h
    exact List.Forall₂.nil
  | cons x xs ih =>
    intro ys h
    unfold mapMExcept at h
    cases hf : f x with
    | error e => rw [hf] at h; cases h
    | ok y =>
      rw [hf] at h
      cases hm : mapMExcept f xs with
      | error e => rw [hm] at h; cases h
      | ok ys' =>
        rw [hm] at h
        cases h
        exact List.Forall₂.cons hf (ih hm)

theorem mapMExcept_ok_of_forall {f : α → Except Failure α} :
    ∀ {xs : List α}, (∀ x ∈ xs, f x = .ok x) → mapMExcept f xs = .ok xs := by
  intro xs
  induction xs with
  | nil => intro _; rfl
  | cons x xs ih =>
    intro h
    have hx := h x (List.mem_cons_self _ _)
    have hrest := ih (fun q hq => h q (List.mem_cons_of_mem _ hq))
    simp [mapMExcept, hx, hrest]

theorem mapMExcept_error_first {f : α → Except Failure β} {e : Failure} :
    ∀ (pre : List α) (x : α) (post : List α),
      (∀ q ∈ pre, ∃ y, f q = .ok y) → f x = .error e →
      mapMExcept f (pre ++ x :: post) = .error e := by
  intro pre
  induction pre with
  | nil =>
    intro x post _ hx
    simp [mapMExcept, hx]
  | cons p pre ih =>
    intro x post hpre hx
    obtain ⟨y, hy⟩ := hpre p (List.mem_cons_self _ _)
    have hrest := ih x post (fun q hq => hpre q (List.mem_cons_of_mem _ hq)) hx
    simp [mapMExcept, hy, hrest]

theorem forall₂_right_mem {R : α → β → Prop} :
    ∀ {xs : List α} {ys : List β}, List.Forall₂ R xs ys → ∀ y ∈ ys, ∃ x, R x y := by
  intro xs ys h
  induction h with
  | nil => intro y hy; cases hy
  | cons hr _ ih =>
    intro y hy
    cases hy with
    | head => exact ⟨_, hr⟩
    | tail _ hy' => exact ih y hy'

theorem list_canon_is_map {ys : List JValue}
    (h : ∀ y ∈ ys, ∃ n, y = .num (.posInt n)) :
    ∃ vs : List Nat, ys = vs.map (fun n => .num (.posInt n)) := by
  induction ys with
  | nil => exact ⟨[], rfl⟩
  | cons y ys ih =>
    obtain ⟨n, hn⟩ := h y (List.mem_cons_self _ _)
    obtain ⟨vs, hvs⟩ := ih (fun z hz => h z (List.mem_cons_of_mem _ hz))
    exact ⟨n :: vs, by simp [hn, hvs]⟩

theorem mapUnwrapU64_posInts : ∀ vs : List Nat,
    mapUnwrapU64 (vs.map (fun n => .num (.posInt n))) = some vs := by
  intro vs
  induction vs with
  | nil => rfl
  | cons v vs ih => simp [mapUnwrapU64, as_u64, ih]

theorem collapseSingleton_posInts (vs : List Nat) :
    collapseSingleton (some (.arr (vs.map (fun n => .num (.posInt n))))) =
      some (.arr (vs.map (fun n => .num (.posInt n)))) := by
  cases vs with
  | nil => rfl
  | cons a t =>
    cases t with
    | nil => rfl
    | cons b t' => rfl

theorem normalize_pcr_ids_arr_eq {p : Option JValue} {vals : List JValue}
    (hc : convergeShape p = some (.arr vals)) :
    normalize_pcr_ids p =
      match mapMExcept normElem vals with
      | .error e => .error e
      | .ok newvals => .ok (some (.arr newvals)) := by
  unfold normalize_pcr_ids
  rw [hc]

theorem normalize_pcr_ids_none_eq {p : Option JValue}
    (hc : convergeShape p = none) : normalize_pcr_ids p = .ok none := by
  unfold normalize_pcr_ids
  rw [hc]

theorem normalize_pcr_ids_canon (vs : List Nat) :
    normalize_pcr_ids (some (.arr (vs.map (fun n => .num (.posInt n))))) =
      .ok (some (.arr (vs.map (fun n => .num (.posInt n))))) := by
  have h2 : mapMExcept normElem (vs.map (fun n => .num (.posInt n))) =
      .ok (vs.map (fun n => .num (.posInt n))) := by
    apply mapMExcept_ok_of_forall
    intro x hx
    obtain ⟨n, _, rfl⟩ := List.mem_map.mp hx
    exact normElem_posInt n
  have hc : convergeShape (some (.arr (vs.map (fun n => .num (.posInt n))))) =
      some (.arr (vs.map (fun n => .num (.posInt n)))) := by
    unfold convergeShape
    rw [collapseSingleton_posInts vs]
    rfl
  rw [normalize_pcr_ids_arr_eq hc, h2]

theorem normalize_pcr_ids_ok_shape {p q : Option JValue}
    (h : normalize_pcr_ids p = .ok q) :
    q = none ∨
      ∃ vs : List Nat, q = some (.arr (vs.map (fun n => .num (.posInt n)))) := by
  cases hc : convergeShape p with
  | none =>
    rw [normalize_pcr_ids_none_eq hc] at h
    cases h
    exact Or.inl rfl
  | some v =>
    cases v with
    | arr vals =>
      rw [normalize_pcr_ids_arr_eq hc] at h
      cases hm : mapMExcept normElem vals with
      | error e => rw [hm] at h; cases h
      | ok newvals =>
        rw [hm] at h
        cases h
        right
        have hcanon : ∀ y ∈ newvals, ∃ n, y = JValue.num (.posInt n) := by
          intro y hy
          obtain ⟨x, hx⟩ := forall₂_right_mem (mapMExcept_forall₂ hm) y hy
          exact normElem_ok_canon hx
        obtain ⟨vs, hvs⟩ := list_canon_is_map hcanon
        exact ⟨vs, by rw [hvs]⟩
    | null => unfold normalize_pcr_ids at h; rw [hc] at h; cases h
    | bool b => unfold normalize_pcr_ids at h; rw [hc] at h; cases h
    | num n => unfold normalize_pcr_ids at h; rw [hc] at h; cases h
    | str s => unfold normalize_pcr_ids at h; rw [hc] at h; cases h
    | obj fs => unfold normalize_pcr_ids at h; rw [hc] at h; cases h

theorem normalize_pcr_ids_idem {p q : Option JValue}
    (h : normalize_pcr_ids p = .ok q) : normalize_pcr_ids q = .ok q := by
  rcases normalize_pcr_ids_ok_shape h with hq | ⟨vs, hq⟩
  · subst hq; rfl
  · subst hq; exact normalize_pcr_ids_canon vs

theorem applyBankDefault_pcr_ids (c : TPM2Config) :
    (applyBankDefault c).pcr_ids = c.pcr_ids := by
  unfold applyBankDefault
  split <;> rfl

theorem applyBankDefault_use_policy (c : TPM2Config) :
    (applyBankDefault c).use_policy = c.use_policy := by
  unfold applyBankDefault
  split <;> rfl

theorem applyBankDefault_pubkey (c : TPM2Config) :
    (applyBankDefault c).policy_pubkey_path = c.policy_pubkey_path := by
  unfold applyBankDefault
  split <;> rfl

theorem applyBankDefault_path (c : TPM2Config) :
    (applyBankDefault c).policy_path = c.policy_path := by
  unfold applyBankDefault
  split <;> rfl

theorem applyBankDefault_ref (c : TPM2Config) :
    (applyBankDefault c).policy_ref = c.policy_ref := by
  unfold applyBankDefault
  split <;> rfl

theorem applyBankDefault_bank_eq (c : TPM2Config) :
    (applyBankDefault c).pcr_bank =
      if c.pcr_ids.isSome && c.pcr_bank.isNone then some "sha256" else c.pcr_bank := by
  unfold applyBankDefault
  split <;> simp_all

theorem applyBankDefault_id_of_no_ids (c : TPM2Config) (h : c.pcr_ids = none) :
    applyBankDefault c = c := by
  unfold applyBankDefault
  rw [h]
  simp

theorem applyBankDefault_id_of_bank_some (c : TPM2Config)
    (h : c.pcr_bank.isNone = false) : applyBankDefault c = c := by
  unfold applyBankDefault
  rw [h]
  simp

theorem defaultPolicyPath_path (c : TPM2Config) :
    (defaultPolicyPath c).policy_path = some (c.policy_path.getD DEFAULT_POLICY_PATH) := by
  cases h : c.policy_path <;> simp [defaultPolicyPath, h]

theorem defaultPolicyPath_pubkey (c : TPM2Config) :
    (defaultPolicyPath c).policy_pubkey_path = c.policy_pubkey_path := by
  unfold defaultPolicyPath
  split <;> rfl

theorem defaultPolicyPath_ref (c : TPM2Config) :
    (defaultPolicyPath c).policy_ref = c.policy_ref := by
  unfold defaultPolicyPath
  split <;> rfl

theorem defaultPolicyPath_pcr_ids (c : TPM2Config) :
    (defaultPolicyPath c).pcr_ids = c.pcr_ids := by
  unfold defaultPolicyPath
  split <;> rfl

theorem defaultPolicyPath_pcr_bank (c : TPM2Config) :
    (defaultPolicyPath c).pcr_bank = c.pcr_bank := by
  unfold defaultPolicyPath
  split <;> rfl

theorem defaultPolicyPath_use_policy (c : TPM2Config) :
    (defaultPolicyPath c).use_policy = c.use_policy := by
  unfold defaultPolicyPath
  split <;> rfl

theorem defaultPubkeyPath_pubkey (c : TPM2Config) :
    (defaultPubkeyPath c).policy_pubkey_path =
      some (c.policy_pubkey_path.getD DEFAULT_PUBKEY_PATH) := by
  cases h : c.policy_pubkey_path <;> simp [defaultPubkeyPath, h]

theorem defaultPubkeyPath_path (c : TPM2Config) :
    (defaultPubkeyPath c).policy_path = c.policy_path := by
  unfold defaultPubkeyPath
  split <;> rfl

theorem defaultPubkeyPath_ref (c : TPM2Config) :
    (defaultPubkeyPath c).policy_ref = c.policy_ref := by
  unfold defaultPubkeyPath
  split <;> rfl

theorem defaultPubkeyPath_pcr_ids (c : TPM2Config) :
    (defaultPubkeyPath c).pcr_ids = c.pcr_ids := by
  unfold defaultPubkeyPath
  split <;> rfl

theorem defaultPubkeyPath_pcr_bank (c : TPM2Config) :
    (defaultPubkeyPath c).pcr_bank = c.pcr_bank := by
  unfold defaultPubkeyPath
  split <;> rfl

theorem defaultPubkeyPath_use_policy (c : TPM2Config) :
    (defaultPubkeyPath c).use_policy = c.use_policy := by
  unfold defaultPubkeyPath
  split <;> rfl

theorem defaultPolicyRef_ref (c : TPM2Config) :
    (defaultPolicyRef c).policy_ref = some (c.policy_ref.getD DEFAULT_POLICY_REF) := by
  cases h : c.policy_ref <;> simp [defaultPolicyRef, h]

theorem defaultPolicyRef_path (c : TPM2Config) :
    (defaultPolicyRef c).policy_path = c.policy_path := by
  unfold defaultPolicyRef
  split <;> rfl

theorem defaultPolicyRef_pubkey (c : TPM2Config) :
    (defaultPolicyRef c).policy_pubkey_path = c.policy_pubkey_path := by
  unfold defaultPolicyRef
  split <;> rfl

theorem defaultPolicyRef_pcr_ids (c : TPM2Config) :
    (defaultPolicyRef c).pcr_ids = c.pcr_ids := by
  unfold defaultPolicyRef
  split <;> rfl

theorem defaultPolicyRef_pcr_bank (c : TPM2Config) :
    (defaultPolicyRef c).pcr_bank = c.pcr_bank := by
  unfold defaultPolicyRef
  split <;> rfl

theorem defaultPolicyRef_use_policy (c : TPM2Config) :
    (defaultPolicyRef c).use_policy = c.use_policy := by
  unfold defaultPolicyRef
  split <;> rfl

theorem applyPolicyDefaults_pcr_ids (c : TPM2Config) :
    (applyPolicyDefaults c).pcr_ids = c.pcr_ids := by
  unfold applyPolicyDefaults
  split
  · rw [defaultPolicyRef_pcr_ids, defaultPubkeyPath_pcr_ids, defaultPolicyPath_pcr_ids]
  · rfl

theorem applyPolicyDefaults_pcr_bank (c : TPM2Config) :
    (applyPolicyDefaults c).pcr_bank = c.pcr_bank := by
  unfold applyPolicyDefaults
  split
  · rw [defaultPolicyRef_pcr_bank, defaultPubkeyPath_pcr_bank, defaultPolicyPath_pcr_bank]
  · rfl

theorem applyPolicyDefaults_use_policy (c : TPM2Config) :
    (applyPolicyDefaults c).use_policy = c.use_policy := by
  unfold applyPolicyDefaults
  split
  · rw [defaultPolicyRef_use_policy, defaultPubkeyPath_use_policy, defaultPolicyPath_use_policy]
  · rfl

theorem applyPolicyDefaults_path_eq (c : TPM2Config) :
    (applyPolicyDefaults c).policy_path =
      if c.use_policy = some true then some (c.policy_path.getD DEFAULT_POLICY_PATH)
      else c.policy_path := by
  unfold applyPolicyDefaults
  split <;> rename_i h
  · rw [defaultPolicyRef_path, defaultPubkeyPath_path, defaultPolicyPath_path]
  · rfl

theorem applyPolicyDefaults_pubkey_eq (c : TPM2Config) :
    (applyPolicyDefaults c).policy_pubkey_path =
      if c.use_policy = some true then
        some (c.policy_pubkey_path.getD DEFAULT_PUBKEY_PATH)
      else c.policy_pubkey_path := by
  unfold applyPolicyDefaults
  split <;> rename_i h
  · rw [defaultPolicyRef_pubkey, defaultPubkeyPath_pubkey, defaultPolicyPath_pubkey]
  · rfl

theorem applyPolicyDefaults_ref_eq (c : TPM2Config) :
    (applyPolicyDefaults c).policy_ref =
      if c.use_policy = some true then some (c.policy_ref.getD DEFAULT_POLICY_REF)
      else c.policy_ref := by
  unfold applyPolicyDefaults
  split <;> rename_i h
  · rw [defaultPolicyRef_ref, defaultPubkeyPath_ref, defaultPolicyPath_ref]
  · rfl

theorem applyPolicyDefaults_id_of_not_true (c : TPM2Config)
    (h : ¬c.use_policy = some true) : applyPolicyDefaults c = c := by
  unfold applyPolicyDefaults
  rw [if_neg h]

theorem defaultPolicyPath_id_of_some (c : TPM2Config)
    (h : ¬c.policy_path = none) : defaultPolicyPath c = c := by
  unfold defaultPolicyPath
  rw [if_neg h]

theorem defaultPubkeyPath_id_of_some (c : TPM2Config)
    (h : ¬c.policy_pubkey_path = none) : defaultPubkeyPath c = c := by
  unfold defaultPubkeyPath
  rw [if_neg h]

theorem defaultPolicyRef_id_of_some (c : TPM2Config)
    (h : ¬c.policy_ref = none) : defaultPolicyRef c = c := by
  unfold defaultPolicyRef
  rw [if_neg h]

theorem applyPolicyDefaults_idem (c : TPM2Config) :
    applyPolicyDefaults (applyPolicyDefaults c) = applyPolicyDefaults c := by
  by_cases h : c.use_policy = some true
  · have hu : (applyPolicyDefaults c).use_policy = some true := by
      rw [applyPolicyDefaults_use_policy, h]
    have hpath : ¬(applyPolicyDefaults c).policy_path = none := by
      rw [applyPolicyDefaults_path_eq, if_pos h]
      simp
    have hpub : ¬(applyPolicyDefaults c).policy_pubkey_path = none := by
      rw [applyPolicyDefaults_pubkey_eq, if_pos h]
      simp
    have href : ¬(applyPolicyDefaults c).policy_ref = none := by
      rw [applyPolicyDefaults_ref_eq, if_pos h]
      simp
    conv_lhs => rw [applyPolicyDefaults]
    rw [if_pos hu, defaultPolicyPath_id_of_some _ hpath, defaultPubkeyPath_id_of_some _ hpub,
      defaultPolicyRef_id_of_some _ href]
  · rw [applyPolicyDefaults_id_of_not_true c h, applyPolicyDefaults_id_of_not_true c h]

theorem normalize_ok_inv {c cfg : TPM2Config} (h : c.normalize = .ok cfg) :
    ∃ ids, normalize_pcr_ids c.pcr_ids = .ok ids
      ∧ cfg = applyPolicyDefaults (applyBankDefault { c with pcr_ids := ids })
      ∧ someNotAllPolicy cfg = false := by
  unfold TPM2Config.normalize at h
  cases hids : normalize_pcr_ids c.pcr_ids with
  | error e => rw [hids] at h; cases h
  | ok ids =>
    rw [hids] at h
    simp only [normalizeRest] at h
    split at h
    · cases h
    · rename_i hcond
      injection h with h2
      refine ⟨ids, rfl, h2.symm, ?_⟩
      rw [← h2]
      simpa using hcond

theorem normalize_ok_of {c : TPM2Config} {ids : Option JValue}
    (hids : normalize_pcr_ids c.pcr_ids = .ok ids)
    (hsna : someNotAllPolicy
        (applyPolicyDefaults (applyBankDefault { c with pcr_ids := ids })) = false) :
    c.normalize = .ok (applyPolicyDefaults (applyBankDefault { c with pcr_ids := ids })) := by
  unfold TPM2Config.normalize
  rw [hids]
  simp only [normalizeRest]
  rw [hsna]
  simp

theorem normalize_error_of {c : TPM2Config} {ids : Option JValue}
    (hids : normalize_pcr_ids c.pcr_ids = .ok ids)
    (hsna : someNotAllPolicy
        (applyPolicyDefaults (applyBankDefault { c with pcr_ids := ids })) = true) :
    c.normalize = .error (.err "Not all of policy pubkey, path and ref are specified") := by
  unfold TPM2Config.normalize
  rw [hids]
  simp only [normalizeRest]
  rw [hsna]
  simp

theorem someNotAll_defaults_congr (x y : TPM2Config)
    (hu : y.use_policy = x.use_policy)
    (h1 : y.policy_pubkey_path = x.policy_pubkey_path)
    (h2 : y.policy_path = x.policy_path)
    (h3 : y.policy_ref = x.policy_ref) :
    someNotAllPolicy (applyPolicyDefaults y) = someNotAllPolicy (applyPolicyDefaults x) := by
  simp only [someNotAllPolicy, applyPolicyDefaults_pubkey_eq, applyPolicyDefaults_path_eq,
    applyPolicyDefaults_ref_eq, hu, h1, h2, h3]

theorem get_pcr_ids_canon {cfg : TPM2Config} {vs : List Nat}
    (h : cfg.pcr_ids = some (.arr (vs.map (fun n => .num (.posInt n))))) :
    cfg.get_pcr_ids = .ok (some vs) := by
  simp [TPM2Config.get_pcr_ids, h, mapUnwrapU64_posInts]

/-- Claim C1: each of the four accepted input shapes of pcr_ids — the
comma-separated string "1, 7,12", the singleton string array ["7"], the
string array ["1","7"], and the number array [1,7] — normalizes successfully
to the canonical ordered sequence of non-negative integers given, preserving
order and duplicates (last conjunct: "7,1,7" stays [7,1,7], unsorted). -/
theorem pcr_ids_four_shapes :
    normalize_pcr_ids (some (.str "1, 7,12")) =
        .ok (some (.arr [.num (.posInt 1), .num (.posInt 7), .num (.posInt 12)]))
  ∧ normalize_pcr_ids (some (.arr [.str "7"])) = .ok (some (.arr [.num (.posInt 7)]))
  ∧ normalize_pcr_ids (some (.arr [.str "1", .str "7"])) =
        .ok (some (.arr [.num (.posInt 1), .num (.posInt 7)]))
  ∧ normalize_pcr_ids (some (.arr [.num (.posInt 1), .num (.posInt 7)])) =
        .ok (some (.arr [.num (.posInt 1), .num (.posInt 7)]))
  ∧ normalize_pcr_ids (some (.str "7,1,7")) =
        .ok (some (.arr [.num (.posInt 7), .num (.posInt 1), .num (.posInt 7)])) :=
  ⟨rfl, rfl, rfl, rfl, rfl⟩

/-- Claim C10: a single-element array whose one element is a comma-separated
string of several indices, ["1,7"], is accepted and yields the multi-element
sequence [1,7] (the singleton-collapse rule turns it into a bare string
before the comma-split rule runs); the same string inside a multi-element
array, ["1,7","3"], is rejected as an unparseable element. -/
theorem pcr_ids_fifth_shape :
    normalize_pcr_ids (some (.arr [.str "1,7"])) =
        .ok (some (.arr [.num (.posInt 1), .num (.posInt 7)]))
  ∧ normalize_pcr_ids (some (.arr [.str "1,7", .str "3"])) =
        .error (.err "Unparseable string int") :=
  ⟨rfl, rfl⟩

/-- Claim C3: when pcr_ids converges to a sequence, normalization fails with
the error of the first invalid element and never silently clamps or drops a
value (on success each output element is the image of the corresponding input
element); an unparseable text element gives "Unparseable string int", a text
element parsing to a non-u64 number gives "Non-positive string int", a
non-u64 numeric element gives "Non-positive int", any other element shape
gives "Invalid value in pcr_ids"; and a pcr_ids value that is neither absent
nor a sequence after convergence gives "Invalid type". -/
theorem pcr_ids_error_handling (p : Option JValue) :
    (∀ vals, convergeShape p = some (.arr vals) →
      ((∀ pre x post e, vals = pre ++ x :: post →
          (∀ q ∈ pre, ∃ y, normElem q = .ok y) → normElem x = .error e →
          normalize_pcr_ids p = .error e)
        ∧ (∀ out, normalize_pcr_ids p = .ok (some (.arr out)) →
            List.Forall₂ (fun a b => normElem a = .ok b) vals out)))
  ∧ (∀ s : String, parseJNum (trimChars s.toList) = none →
      normElem (.str s) = .error (.err "Unparseable string int"))
  ∧ (∀ (s : String) (res : JNum), parseJNum (trimChars s.toList) = some res →
      res.is_u64 = false →
      normElem (.str s) = .error (.err "Non-positive string int"))
  ∧ (∀ n : JNum, n.is_u64 = false →
      normElem (.num n) = .error (.err "Non-positive int"))
  ∧ (∀ x : JValue, (∀ s, x ≠ .str s) → (∀ n, x ≠ .num n) →
      normElem x = .error (.err "Invalid value in pcr_ids"))
  ∧ (∀ v, convergeShape p = some v → (∀ vs, v ≠ .arr vs) →
      normalize_pcr_ids p = .error (.err "Invalid type")) := by
  refine ⟨?_, ?_, ?_, ?_, ?_, ?_⟩
  · intro vals hc
    constructor
    · intro pre x post e hsp hpre hx
      rw [normalize_pcr_ids_arr_eq hc, hsp, mapMExcept_error_first pre x post hpre hx]
    · intro out hok
      rw [normalize_pcr_ids_arr_eq hc] at hok
      cases hm : mapMExcept normElem vals with
      | error e => rw [hm] at hok; cases hok
      | ok newvals =>
        rw [hm] at hok
        simp only [Except.ok.injEq, Option.some.injEq, JValue.arr.injEq] at hok
        rw [← hok]
        exact mapMExcept_forall₂ hm
  · intro s hp
    have hp' : parseJNum (trimChars s.data) = none := hp
    simp [normElem, hp']
  · intro s res hp hu
    have hp' : parseJNum (trimChars s.data) = some res := hp
    simp [normElem, hp', hu]
  · intro n hu
    simp [normElem, hu]
  · intro x hs hn
    cases x with
    | null => rfl
    | bool b => rfl
    | num n => exact absurd rfl (hn n)
    | str s => exact absurd rfl (hs s)
    | arr vs => rfl
    | obj fs => rfl
  · intro v hc hna
    cases v with
    | arr vs => exact absurd rfl (hna vs)
    | null => unfold normalize_pcr_ids; rw [hc]
    | bool b => unfold normalize_pcr_ids; rw [hc]
    | num n => unfold normalize_pcr_ids; rw [hc]
    | str s => unfold normalize_pcr_ids; rw [hc]
    | obj fs => unfold normalize_pcr_ids; rw [hc]

/-- Witness for C3: the first invalid element of ["abc","3"] makes
normalization fail with "Unparseable string int". -/
theorem pcr_ids_error_handling_witness :
    normalize_pcr_ids (some (.arr [.str "abc", .str "3"])) =
      .error (.err "Unparseable string int") := by
  have h := (pcr_ids_error_handling (some (.arr [.str "abc", .str "3"]))).1
    [.str "abc", .str "3"] rfl
  exact h.1 [] (.str "abc") [.str "3"] (.err "Unparseable string int") rfl
    (fun q hq => absurd hq (List.not_mem_nil q)) rfl

/-- Claim C4: whenever, after the defaulting step, at least one but not all
of policy_pubkey_path, policy_path, policy_ref are set, normalization fails
with "Not all of policy pubkey, path and ref are specified" — regardless of
use_policy; and because defaulting fills all three when use_policy is
explicitly true, such a configuration never fails this check: it normalizes
successfully. -/
theorem all_or_nothing_check (c : TPM2Config) (ids : Option JValue)
    (hids : normalize_pcr_ids c.pcr_ids = .ok ids) :
    (someNotAllPolicy (applyPolicyDefaults c) = true →
      c.normalize = .error (.err "Not all of policy pubkey, path and ref are specified"))
  ∧ (c.use_policy = some true → ∃ cfg, c.normalize = .ok cfg) := by
  have hcongr :
      someNotAllPolicy (applyPolicyDefaults (applyBankDefault { c with pcr_ids := ids }))
        = someNotAllPolicy (applyPolicyDefaults c) := by
    apply someNotAll_defaults_congr
    · rw [applyBankDefault_use_policy]
    · rw [applyBankDefault_pubkey]
    · rw [applyBankDefault_path]
    · rw [applyBankDefault_ref]
  constructor
  · intro hsna
    exact normalize_error_of hids (by rw [hcongr]; exact hsna)
  · intro hup
    refine ⟨_, normalize_ok_of hids ?_⟩
    rw [hcongr]
    simp [someNotAllPolicy, applyPolicyDefaults_pubkey_eq, applyPolicyDefaults_path_eq,
      applyPolicyDefaults_ref_eq, hup]

/-- Witness for C4: a configuration with only policy_ref set fails the
all-or-nothing check. -/
theorem all_or_nothing_check_witness :
    partialPolicyCfg.normalize =
      .error (.err "Not all of policy pubkey, path and ref are specified") :=
  (all_or_nothing_check partialPolicyCfg none rfl).1 rfl

/-- Claim C6: with use_policy explicitly true, normalization succeeds (given
valid pcr_ids) and the three policy fields end up filled: each field that was
absent becomes its fixed default ("/boot/clevis_policy.json",
"/boot/clevis_pubkey.json", "" respectively, via getD) and each field that
was already set is left unchanged. -/
theorem policy_defaulting_fills (c : TPM2Config) (ids : Option JValue)
    (hids : normalize_pcr_ids c.pcr_ids = .ok ids) (hup : c.use_policy = some true) :
    ∃ cfg, c.normalize = .ok cfg
      ∧ cfg.policy_path = some (c.policy_path.getD DEFAULT_POLICY_PATH)
      ∧ cfg.policy_pubkey_path = some (c.policy_pubkey_path.getD DEFAULT_PUBKEY_PATH)
      ∧ cfg.policy_ref = some (c.policy_ref.getD DEFAULT_POLICY_REF) := by
  have hup1 : (applyBankDefault { c with pcr_ids := ids }).use_policy = some true := by
    rw [applyBankDefault_use_policy]
    exact hup
  refine ⟨_, normalize_ok_of hids ?_, ?_, ?_, ?_⟩
  · simp [someNotAllPolicy, applyPolicyDefaults_pubkey_eq, applyPolicyDefaults_path_eq,
      applyPolicyDefaults_ref_eq, hup1]
  · rw [applyPolicyDefaults_path_eq, if_pos hup1, applyBankDefault_path]
  · rw [applyPolicyDefaults_pubkey_eq, if_pos hup1, applyBankDefault_pubkey]
  · rw [applyPolicyDefaults_ref_eq, if_pos hup1, applyBankDefault_ref]

/-- Witness for C6: `sampleRaw` (use_policy true, all policy fields absent)
normalizes with the three defaults filled in. -/
theorem policy_defaulting_fills_witness :
    ∃ cfg, sampleRaw.normalize = .ok cfg
      ∧ cfg.policy_path = some (sampleRaw.policy_path.getD DEFAULT_POLICY_PATH)
      ∧ cfg.policy_pubkey_path = some (sampleRaw.policy_pubkey_path.getD DEFAULT_PUBKEY_PATH)
      ∧ cfg.policy_ref = some (sampleRaw.policy_ref.getD DEFAULT_POLICY_REF) :=
  policy_defaulting_fills sampleRaw
    (some (.arr [.num (.posInt 1), .num (.posInt 7), .num (.posInt 12)])) rfl rfl

/-- Claim C7: after successful normalization, if pcr_ids is present and
pcr_bank was absent, pcr_bank is "sha256"; a supplied pcr_bank is left
unchanged, and with pcr_ids absent pcr_bank is left unchanged. -/
theorem bank_default_sha256 (c cfg : TPM2Config) (h : c.normalize = .ok cfg) :
    (cfg.pcr_ids.isSome = true → c.pcr_bank = none → cfg.pcr_bank = some "sha256")
  ∧ (∀ b, c.pcr_bank = some b → cfg.pcr_bank = some b)
  ∧ (cfg.pcr_ids = none → cfg.pcr_bank = c.pcr_bank) := by
  obtain ⟨ids, hids, hcfg, _⟩ := normalize_ok_inv h
  have hbank : cfg.pcr_bank = (applyBankDefault { c with pcr_ids := ids }).pcr_bank := by
    rw [hcfg, applyPolicyDefaults_pcr_bank]
  have hidsf : cfg.pcr_ids = ids := by
    rw [hcfg, applyPolicyDefaults_pcr_ids, applyBankDefault_pcr_ids]
  refine ⟨?_, ?_, ?_⟩
  · intro hsome hnone
    rw [hbank, applyBankDefault_bank_eq]
    rw [hidsf] at hsome
    simp [hsome, hnone]
  · intro b hb
    rw [hbank, applyBankDefault_bank_eq]
    simp [hb]
  · intro hnone
    rw [hbank, applyBankDefault_bank_eq]
    rw [hidsf] at hnone
    simp [hnone]

/-- Witness for C7: `sampleRaw` has pcr_ids present and pcr_bank absent, and
its normalized form has pcr_bank "sha256". -/
theorem bank_default_sha256_witness : sampleNormalized.pcr_bank = some "sha256" :=
  (bank_default_sha256 sampleRaw sampleNormalized rfl).1 rfl rfl

/-- Claim C8: when use_policy is absent or false and all three policy fields
are set (and pcr_ids is valid), the advisory warning fires but normalization
still succeeds with the three policy fields unchanged — the warning never
causes a failure. -/
theorem policy_warning_advisory (c : TPM2Config) (ids : Option JValue)
    (hids : normalize_pcr_ids c.pcr_ids = .ok ids) (hup : ¬c.use_policy = some true)
    (h1 : c.policy_pubkey_path.isSome = true) (h2 : c.policy_path.isSome = true)
    (h3 : c.policy_ref.isSome = true) :
    emitsPolicyWarning c = true
  ∧ ∃ cfg, c.normalize = .ok cfg
      ∧ cfg.policy_pubkey_path = c.policy_pubkey_path
      ∧ cfg.policy_path = c.policy_path
      ∧ cfg.policy_ref = c.policy_ref := by
  have hup1 : ¬(applyBankDefault { c with pcr_ids := ids }).use_policy = some true := by
    rw [applyBankDefault_use_policy]
    exact hup
  obtain ⟨pk, hpk⟩ := Option.isSome_iff_exists.mp h1
  obtain ⟨pp, hpp⟩ := Option.isSome_iff_exists.mp h2
  obtain ⟨pr, hpr⟩ := Option.isSome_iff_exists.mp h3
  constructor
  · unfold emitsPolicyWarning
    cases hu : c.use_policy with
    | none => simp [h1]
    | some b =>
      cases b with
      | true => exact absurd hu hup
      | false => simp [h1]
  · refine ⟨_, normalize_ok_of hids ?_, ?_, ?_, ?_⟩
    · rw [applyPolicyDefaults_id_of_not_true _ hup1]
      simp [someNotAllPolicy, applyBankDefault_pubkey, applyBankDefault_path,
        applyBankDefault_ref, hpk, hpp, hpr]
    · rw [applyPolicyDefaults_id_of_not_true _ hup1, applyBankDefault_pubkey]
    · rw [applyPolicyDefaults_id_of_not_true _ hup1, applyBankDefault_path]
    · rw [applyPolicyDefaults_id_of_not_true _ hup1, applyBankDefault_ref]

/-- Witness for C8: `warnCfg` (use_policy absent, all three policy fields
set) warns and still normalizes with the fields unchanged. -/
theorem policy_warning_advisory_witness :
    emitsPolicyWarning warnCfg = true
  ∧ ∃ cfg, warnCfg.normalize = .ok cfg
      ∧ cfg.policy_pubkey_path = warnCfg.policy_pubkey_path
      ∧ cfg.policy_path = warnCfg.policy_path
      ∧ cfg.policy_ref = warnCfg.policy_ref :=
  policy_warning_advisory warnCfg none rfl (by decide) rfl rfl rfl

/-- Claim C5: normalization is idempotent — normalizing the result of a
successful normalization succeeds and returns it unchanged. -/
theorem normalize_idempotent (c cfg : TPM2Config) (h : c.normalize = .ok cfg) :
    cfg.normalize = .ok cfg := by
  obtain ⟨ids, hids, hcfg, hsna⟩ := normalize_ok_inv h
  have hpcr : cfg.pcr_ids = ids := by
    rw [hcfg, applyPolicyDefaults_pcr_ids, applyBankDefault_pcr_ids]
  have hids2 : normalize_pcr_ids cfg.pcr_ids = .ok cfg.pcr_ids := by
    rw [hpcr]
    exact normalize_pcr_ids_idem hids
  have hbd : applyBankDefault cfg = cfg := by
    cases hi : ids with
    | none =>
      apply applyBankDefault_id_of_no_ids
      rw [hpcr, hi]
    | some v =>
      apply applyBankDefault_id_of_bank_some
      have hb : cfg.pcr_bank = (applyBankDefault { c with pcr_ids := ids }).pcr_bank := by
        rw [hcfg, applyPolicyDefaults_pcr_bank]
      rw [hb, applyBankDefault_bank_eq]
      cases hcb : c.pcr_bank with
      | none => simp [hi, hcb]
      | some b => simp [hi, hcb]
  have hpd : applyPolicyDefaults cfg = cfg := by
    rw [hcfg]
    exact applyPolicyDefaults_idem _
  unfold TPM2Config.normalize
  rw [hids2]
  show normalizeRest cfg = .ok cfg
  simp only [normalizeRest]
  rw [hbd, hpd, hsna]
  simp

/-- Witness for C5: re-normalizing the normalized `sampleRaw` is a no-op. -/
theorem normalize_idempotent_witness : sampleNormalized.normalize = .ok sampleNormalized :=
  normalize_idempotent sampleRaw sampleNormalized rfl

/-- Claim C9: on every configuration returned by a successful normalization
the PCR accessors never hit a failure branch: get_pcr_ids returns None
exactly when pcr_ids is absent and otherwise Some of the list of integer
indices — the element-wise unwrap and the panic on a non-array shape are
unreachable. -/
theorem get_pcr_ids_safe (c cfg : TPM2Config) (h : c.normalize = .ok cfg) :
    (cfg.pcr_ids = none → cfg.get_pcr_ids = .ok none)
  ∧ (∀ v, cfg.pcr_ids = some v →
      ∃ l : List Nat, v = .arr (l.map (fun n => .num (.posInt n)))
        ∧ cfg.get_pcr_ids = .ok (some l)) := by
  obtain ⟨ids, hids, hcfg, _⟩ := normalize_ok_inv h
  have hpcr : cfg.pcr_ids = ids := by
    rw [hcfg, applyPolicyDefaults_pcr_ids, applyBankDefault_pcr_ids]
  have hshape := normalize_pcr_ids_ok_shape hids
  constructor
  · intro hnone
    unfold TPM2Config.get_pcr_ids
    rw [hnone]
  · intro v hv
    rcases hshape with hq | ⟨vs, hq⟩
    · rw [hpcr, hq] at hv
      cases hv
    · rw [hpcr, hq] at hv
      injection hv with hv'
      refine ⟨vs, hv'.symm, ?_⟩
      exact get_pcr_ids_canon (by rw [hpcr, hq])

/-- Witness for C9: the accessor on the normalized `sampleRaw` returns the
index list [1, 7, 12]. -/
theorem get_pcr_ids_safe_witness :
    ∃ l : List Nat,
      (JValue.arr [.num (.posInt 1), .num (.posInt 7), .num (.posInt 12)]) =
        .arr (l.map (fun n => .num (.posInt n)))
      ∧ sampleNormalized.get_pcr_ids = .ok (some l) :=
  (get_pcr_ids_safe sampleRaw sampleNormalized rfl).2
    (.arr [.num (.posInt 1), .num (.posInt 7), .num (.posInt 12)]) rfl

/-- Claim C2: compiling a normalized configuration follows the four-row
decision table: with both pcr_ids and policy_pubkey_path present the result
is the 8-slot Or with slot 0 the PCR match, slot 1 the result of the signed
policy constructor called with (pubkey path, absent key hint, policy_ref)
— its failure propagating — and slots 2-7 NoStep; with only pcr_ids the bare
PCR match; with only policy_pubkey_path the constructor result unwrapped;
with neither, NoStep. -/
theorem policy_compile_decision_table
    (getAuthorizedPolicyStep :
      String → Option String → Option String → Except Failure TPMPolicyStep)
    (c cfg : TPM2Config) (h : c.normalize = .ok cfg) :
    (∀ pk, cfg.policy_pubkey_path = some pk →
      (∀ v, cfg.pcr_ids = some v →
        ∃ ids, cfg.get_pcr_ids = .ok (some ids) ∧
          tryFrom getAuthorizedPolicyStep cfg =
            (getAuthorizedPolicyStep pk none cfg.policy_ref).map (fun auth =>
              .Or (.PCRs cfg.get_pcr_hash_alg ids .NoStep) auth
                .NoStep .NoStep .NoStep .NoStep .NoStep .NoStep))
      ∧ (cfg.pcr_ids = none →
          tryFrom getAuthorizedPolicyStep cfg =
            getAuthorizedPolicyStep pk none cfg.policy_ref))
  ∧ (cfg.policy_pubkey_path = none →
      (∀ v, cfg.pcr_ids = some v →
        ∃ ids, cfg.get_pcr_ids = .ok (some ids) ∧
          tryFrom getAuthorizedPolicyStep cfg =
            .ok (.PCRs cfg.get_pcr_hash_alg ids .NoStep))
      ∧ (cfg.pcr_ids = none → tryFrom getAuthorizedPolicyStep cfg = .ok .NoStep)) := by
  obtain ⟨ids, hids, hcfg, _⟩ := normalize_ok_inv h
  have hpcr : cfg.pcr_ids = ids := by
    rw [hcfg, applyPolicyDefaults_pcr_ids, applyBankDefault_pcr_ids]
  have hshape := normalize_pcr_ids_ok_shape hids
  constructor
  · intro pk hpk
    constructor
    · intro v hv
      rcases hshape with hq | ⟨vs, hq⟩
      · rw [hpcr, hq] at hv
        cases hv
      · have hcan : cfg.pcr_ids = some (.arr (vs.map (fun n => .num (.posInt n)))) := by
          rw [hpcr, hq]
        have hget := get_pcr_ids_canon hcan
        refine ⟨vs, hget, ?_⟩
        cases hga : getAuthorizedPolicyStep pk none cfg.policy_ref with
        | error e => simp [tryFrom, hcan, hpk, hget, hga, Except.map]
        | ok auth => simp [tryFrom, hcan, hpk, hget, hga, Except.map]
    · intro hnone
      simp [tryFrom, hnone, hpk]
  · intro hpk
    constructor
    · intro v hv
      rcases hshape with hq | ⟨vs, hq⟩
      · rw [hpcr, hq] at hv
        cases hv
      · have hcan : cfg.pcr_ids = some (.arr (vs.map (fun n => .num (.posInt n)))) := by
          rw [hpcr, hq]
        have hget := get_pcr_ids_canon hcan
        refine ⟨vs, hget, ?_⟩
        simp [tryFrom, hcan, hpk, hget]
    · intro hnone
      simp [tryFrom, hnone, hpk]

/-- Witness for C2: with neither pcr_ids nor a pubkey path, compilation of a
normalized empty configuration yields NoStep. -/
theorem policy_compile_decision_table_witness :
    tryFrom (fun p kh r => .ok (.Authorized p kh r)) emptyCfg = .ok .NoStep :=
  ((policy_compile_decision_table (fun p kh r => .ok (.Authorized p kh r))
      emptyCfg emptyCfg rfl).2 rfl).2 rfl
